import Mathlib

/-!
Verification development for the asset-server core of `bevy_atelier`
(`src/asset_server.rs`).

The Rust source is shallowly embedded: pure data becomes plain Lean data,
the channel of reference-count operations becomes an explicit queue
(`List RefOp`) threaded through the facade's state, calls into concrete
typed storages are recorded as a trace of `StorageEvent`s, and a Rust
function that may panic (`unwrap`, `expect`, `unimplemented!`) returns a
`RunOutcome` whose `panicked` constructor carries the panic report.

External collaborators that the source merely calls (the `atelier_loader`
crate's `Loader`, handle constructors, the concrete `AssetStorage`
implementations) are modelled at their call boundary: a concrete storage is
a record of functions, the loader's internal `process` step is a parameter,
and the handle constructors follow the specification's description (their
doc comments say so explicitly).
-/

set_option autoImplicit false

namespace BevyAtelier

/-- Outcome of running a piece of Rust code that may panic: either a normal
return value or a panic carrying its report string. -/
inductive RunOutcome (α : Type) where
  | panicked (msg : String) : RunOutcome α
  | returned (val : α) : RunOutcome α

/-- Panic report of `Option::unwrap` on `None` (used by `result.unwrap()` and
`load_op_arg.take().unwrap()` in `AssetStorageResolver::update_asset`). -/
def optionUnwrapNoneMsg : String := "called Option::unwrap() on a None value"

/-- Panic report of `Result::unwrap` on `Err` (used on the value returned by
`loader.process` in `process_system`, and on `PackfileReader::new`). -/
def resultUnwrapErrMsg : String := "called Result::unwrap() on an Err value"

/-- Stable identifier of an asset type (`atelier_core::AssetTypeId`, a 16-byte
uuid, modelled as an opaque number). -/
structure AssetTypeId where
  uuid : Nat
deriving DecidableEq

/-- Opaque token naming one loaded asset slot
(`atelier_loader::storage::LoadHandle`, a `u64`). -/
structure LoadHandle where
  id : Nat
deriving DecidableEq

/-- Opaque reference to the `&dyn LoaderInfoProvider` passed through
`update_asset`; the resolver forwards it without inspecting it. -/
structure LoaderInfoProvider where
  token : Nat
deriving DecidableEq

/-- Opaque token for the move-only `AssetLoadOp` value; the resolver hands it
to the concrete storage exactly once (`load_op_arg.take().unwrap()`). -/
structure AssetLoadOp where
  op_id : Nat
deriving DecidableEq

/-- Opaque reference to the host's shared `Resources` set; visitors receive it
to locate their concrete storage. -/
structure Resources where
  token : Nat
deriving DecidableEq

/-- Reference-count operation sent on the ref-op channel
(`atelier_loader::handle::RefOp`). -/
inductive RefOp where
  | increase (handle : LoadHandle)
  | decrease (handle : LoadHandle)
deriving DecidableEq

/-- Errors of `AssetServerError` in `src/asset_server.rs`, one constructor per
Rust variant; `io::Error` and `AssetLoadError` payloads are opaque codes. -/
inductive AssetServerError where
  | assetFolderNotADirectory (path : String)
  | invalidRootPath
  | missingAssetHandler
  | missingAssetLoader
  | missingAssetRegistration (asset_type_id : AssetTypeId)
  | assetLoadError (code : Nat)
  | io (code : Nat)
  | assetWatchError (path : String)
deriving DecidableEq

/-- A `Box<dyn Error + Send>` as returned by `AssetStorage::update_asset`:
either an `AssetServerError` boxed by the resolver, or some error of a
concrete storage, modelled as an opaque code. -/
inductive BoxedDynError where
  | assetServer (e : AssetServerError)
  | other (code : Nat)
deriving DecidableEq

/-- One observable call made into a concrete typed storage (or the invocation
of a registered visitor); the resolver's methods are given semantics as the
trace of these events. -/
inductive StorageEvent where
  | visitorInvoked (asset_type_id : AssetTypeId)
  | updateCalled (loader_info : LoaderInfoProvider) (asset_type_id : AssetTypeId)
      (data : List Nat) (load_handle : LoadHandle) (load_op : AssetLoadOp) (version : Nat)
  | commitCalled (asset_type_id : AssetTypeId) (load_handle : LoadHandle) (version : Nat)
  | freeCalled (asset_type_id : AssetTypeId) (load_handle : LoadHandle) (version : Nat)
deriving DecidableEq

/-- A concrete typed storage (`&dyn atelier_loader::storage::AssetStorage` as
handed to the callback by a visitor). Only `update_asset` has an observable
return value; `commit_asset_version` and `free` return unit, so those calls
are captured purely by the event trace. -/
structure AssetStorage where
  update_asset : LoaderInfoProvider → AssetTypeId → List Nat → LoadHandle →
    AssetLoadOp → Nat → Except BoxedDynError Unit

/-- Modelled from the spec: the registration value stored by the
`AssetTypeRegistry` (repository code not under `src/`; `asset_server.rs` only
uses its `get_assets_storage_fn` field). The spec calls it the visitor that
"locates T's concrete storage container within that resource set and invokes
the callback with it". A visitor is embedded as the list of concrete storages
it invokes the callback with, in order: the callback returns unit, so the
storages chosen (and how many invocations happen) are its whole observable
behaviour. -/
structure AssetTypeRegistration where
  get_assets_storage_fn : Resources → List AssetStorage

/-- Modelled from the spec: the `AssetTypeRegistry` resource (repository code
not under `src/`; `asset_server.rs` only calls `registrations.get`). A map
from `AssetTypeId` to its registration, "inserted once at startup per asset
type; immutable thereafter". -/
structure AssetTypeRegistry where
  registrations : List (AssetTypeId × AssetTypeRegistration)

/-- Lookup in the registry's map (`self.0.registrations.get(asset_type_id)`). -/
def AssetTypeRegistry.get (registry : AssetTypeRegistry) (asset_type_id : AssetTypeId) :
    Option AssetTypeRegistration :=
  lookupRegistration registry.registrations asset_type_id
where
  lookupRegistration : List (AssetTypeId × AssetTypeRegistration) → AssetTypeId →
      Option AssetTypeRegistration
    | [], _ => none
    | (k, v) :: rest, key => if k = key then some v else lookupRegistration rest key

/-- The closure passed by `AssetStorageResolver::update_asset` to the visitor,
run over the storages the visitor invokes it with. State: `load_op_arg`
(`Option AssetLoadOp`, consumed by `take().unwrap()` on the first invocation,
panicking on a second) and `result` (overwritten by each invocation with the
concrete storage's return value). Returns the events emitted, and the final
`result` unless an invocation panicked. -/
def run_update_callback (loader_info : LoaderInfoProvider) (asset_type_id : AssetTypeId)
    (data : List Nat) (load_handle : LoadHandle) (version : Nat) :
    Option AssetLoadOp → Option (Except BoxedDynError Unit) → List AssetStorage →
    List StorageEvent × RunOutcome (Option (Except BoxedDynError Unit))
  | _, result, [] => ([], RunOutcome.returned result)
  | load_op_arg, _, s :: rest =>
    match load_op_arg with
    | none => ([], RunOutcome.panicked optionUnwrapNoneMsg)
    | some op =>
      let r := s.update_asset loader_info asset_type_id data load_handle op version
      let tail := run_update_callback loader_info asset_type_id data load_handle version
        none (some r) rest
      (StorageEvent.updateCalled loader_info asset_type_id data load_handle op version
        :: tail.1, tail.2)

/-- The final `result.unwrap()` of `AssetStorageResolver::update_asset`: if the
visitor never invoked the callback, `result` is still `None` and the unwrap
panics. -/
def unwrap_callback_result {α : Type} : RunOutcome (Option α) → RunOutcome α
  | RunOutcome.panicked m => RunOutcome.panicked m
  | RunOutcome.returned none => RunOutcome.panicked optionUnwrapNoneMsg
  | RunOutcome.returned (some r) => RunOutcome.returned r

/-- `AssetStorageResolver::update_asset` (src/asset_server.rs lines 211-248):
looks up the registration for `asset_type_id`; if absent, returns
`Err(AssetServerError::MissingAssetRegistration(*asset_type_id))` having
touched no storage; if present, invokes the visitor with the callback above
and unwraps the recorded result. The returned list is the trace of storage
events. -/
def AssetStorageResolver.update_asset (registry : AssetTypeRegistry) (resources : Resources)
    (loader_info : LoaderInfoProvider) (asset_type_id : AssetTypeId) (data : List Nat)
    (load_handle : LoadHandle) (load_op : AssetLoadOp) (version : Nat) :
    List StorageEvent × RunOutcome (Except BoxedDynError Unit) :=
  match registry.get asset_type_id with
  | some registration =>
    let r := run_update_callback loader_info asset_type_id data load_handle version
      (some load_op) none (registration.get_assets_storage_fn resources)
    (StorageEvent.visitorInvoked asset_type_id :: r.1, unwrap_callback_result r.2)
  | none =>
    ([], RunOutcome.returned (Except.error (BoxedDynError.assetServer
      (AssetServerError.missingAssetRegistration asset_type_id))))

/-- `AssetStorageResolver::commit_asset_version` (lines 249-268): if the type
is registered, invokes the visitor, whose callback calls
`storage.commit_asset_version` on each storage it is given; if not, only logs
an error and returns. The value is the trace of storage events. -/
def AssetStorageResolver.commit_asset_version (registry : AssetTypeRegistry)
    (resources : Resources) (asset_type_id : AssetTypeId) (load_handle : LoadHandle)
    (version : Nat) : List StorageEvent :=
  match registry.get asset_type_id with
  | some registration =>
    StorageEvent.visitorInvoked asset_type_id ::
      (registration.get_assets_storage_fn resources).map
        (fun _ => StorageEvent.commitCalled asset_type_id load_handle version)
  | none => []

/-- `AssetStorageResolver::free` (lines 269-288): same shape as
`commit_asset_version`, calling `storage.free` through the visitor when the
type is registered and only logging when it is not. -/
def AssetStorageResolver.free (registry : AssetTypeRegistry) (resources : Resources)
    (asset_type_id : AssetTypeId) (load_handle : LoadHandle) (version : Nat) :
    List StorageEvent :=
  match registry.get asset_type_id with
  | some registration =>
    StorageEvent.visitorInvoked asset_type_id ::
      (registration.get_assets_storage_fn resources).map
        (fun _ => StorageEvent.freeCalled asset_type_id load_handle version)
  | none => []

/-- A logical name resolved to a load slot
(`atelier_loader::storage::IndirectIdentifier`); the source only builds the
`Path` variant (`IndirectIdentifier::Path(path.to_string())`). -/
inductive IndirectIdentifier where
  | path (p : String)
deriving DecidableEq

/-- The byte-transport backend the loader was built over: `RpcIO` in daemon
mode, a `PackfileReader` (opaque reader token) in packfile mode. -/
inductive IOBackendKind where
  | rpc
  | packfile (reader : Nat)
deriving DecidableEq

/-- Modelled from the spec: the observable state of the `atelier_loader`
`Loader` (the spec's LoadEngine), external to `src/`. It carries the backend
it was constructed over, the cached (idempotent) resolution table for
indirect identifiers, the handle-allocation counter, and the loads registered
and still pending. -/
structure LoaderState where
  backend : IOBackendKind
  indirect_table : List (IndirectIdentifier × LoadHandle)
  next_handle : Nat
  pending_loads : List IndirectIdentifier
deriving DecidableEq

/-- Cached resolution lookup inside the loader. -/
def lookupIndirect : List (IndirectIdentifier × LoadHandle) → IndirectIdentifier →
    Option LoadHandle
  | [], _ => none
  | (k, v) :: rest, key => if k = key then some v else lookupIndirect rest key

/-- Modelled from the spec: `Loader::new_with_handle_allocator`
(`atelier_loader`, not under `src/`) — a fresh loader over the given backend
with nothing resolved, allocated or pending. -/
def LoaderState.new_with_handle_allocator (backend : IOBackendKind) : LoaderState :=
  { backend := backend, indirect_table := [], next_handle := 0, pending_loads := [] }

/-- Modelled from the spec: `Loader::add_ref_indirect` (`atelier_loader`, not
under `src/`). The spec says a load request "resolves an IndirectIdentifier
if given a logical path", that "resolution is idempotent and cached", and that
the coordinator "registers a load with LoadEngine, returning a handle
immediately": a cached identifier yields its existing handle (re-requests are
coalesced), a new one allocates the next handle, caches the resolution and
registers the pending load. -/
def LoaderState.add_ref_indirect (l : LoaderState) (id : IndirectIdentifier) :
    LoaderState × LoadHandle :=
  match lookupIndirect l.indirect_table id with
  | some h => (l, h)
  | none =>
    let h : LoadHandle := { id := l.next_handle }
    ({ l with
        indirect_table := (id, h) :: l.indirect_table,
        next_handle := l.next_handle + 1,
        pending_loads := id :: l.pending_loads }, h)

/-- A type-erased handle (`atelier_loader::handle::GenericHandle`): one
`LoadHandle` plus (implicitly) the sender end of the ref-op channel, which the
embedding keeps in the server state. -/
structure GenericHandle where
  handle : LoadHandle
deriving DecidableEq

/-- A typed handle (`atelier_loader::handle::Handle<T>`); the type parameter
is phantom, as in the source. -/
structure Handle (T : Type) where
  handle : LoadHandle

/-- Modelled from the spec: `GenericHandle::new` (`atelier_loader::handle`,
not under `src/`). The spec: "Construction enqueues an Increase op" on the
ref-op channel — a non-blocking send, embedded as appending to the queue. -/
def GenericHandle.new (queue : List RefOp) (handle : LoadHandle) :
    GenericHandle × List RefOp :=
  ({ handle := handle }, queue ++ [RefOp.increase handle])

/-- Modelled from the spec: `Handle::<T>::new` (`atelier_loader::handle`, not
under `src/`); identical to `GenericHandle::new` up to the phantom type. -/
def Handle.new (T : Type) (queue : List RefOp) (handle : LoadHandle) :
    Handle T × List RefOp :=
  ({ handle := handle }, queue ++ [RefOp.increase handle])

/-- The state of an `AssetServer` value: the fields of the Rust struct that
the embedded operations read or write. `ref_op_queue` is the contents of the
unbounded channel whose two ends are `ref_op_tx` / `ref_op_rx`. -/
structure AssetServerState where
  max_loader_threads : Nat
  ref_op_queue : List RefOp
  loader : LoaderState
deriving DecidableEq

/-- `AssetServerSettings`: directory ("daemon") mode or packfile mode. -/
inductive AssetServerSettings where
  | directory (path : String)
  | packfile (path : String)
deriving DecidableEq

/-- `AssetServerSettings::default_directory()`. -/
def AssetServerSettings.default_directory : AssetServerSettings :=
  AssetServerSettings.directory "assets"

/-- `AssetServerSettings::default_packfile()`. -/
def AssetServerSettings.default_packfile : AssetServerSettings :=
  AssetServerSettings.packfile "assets.pack"

/-- `impl Default for AssetServerSettings`, parametrised by
`cfg!(feature = "assets-daemon")`. -/
def AssetServerSettings.default_settings (daemon_feature : Bool) : AssetServerSettings :=
  if daemon_feature then AssetServerSettings.default_directory
  else AssetServerSettings.default_packfile

/-- An `anyhow::Error` as produced by `AssetServer::new`: either a message
from `anyhow::bail!` or a converted `io::Error` (opaque code) from the `?` on
`File::open`. -/
inductive AnyhowError where
  | message (msg : String)
  | io (code : Nat)
deriving DecidableEq

/-- The `anyhow::bail!` message of the directory branch compiled without the
`assets-daemon` feature. -/
def daemonRequiredMsg : String :=
  "asset-daemon is required in order to load assets from a directory"

/-- `AssetServer::new` (lines 113-155), parametrised by whether the
`assets-daemon` feature is compiled in and by the effectful collaborators of
the packfile branch (`File::open`, returning an opaque file token or an io
error code, and `PackfileReader::new`, returning an opaque reader token or an
error — the source calls `.unwrap()` on the latter). Directory mode with the
feature spawns the daemon thread and builds an `RpcIO` loader; without the
feature it is `anyhow::bail!`. On success the server starts with
`max_loader_threads = 4` and a fresh, empty ref-op channel. -/
def AssetServer.new (daemon_feature : Bool) (file_open : String → Except Nat Nat)
    (packfile_reader_new : Nat → Except Nat Nat) (settings : AssetServerSettings) :
    RunOutcome (Except AnyhowError AssetServerState) :=
  match settings with
  | AssetServerSettings.directory _ =>
    if daemon_feature then
      RunOutcome.returned (Except.ok
        { max_loader_threads := 4, ref_op_queue := [],
          loader := LoaderState.new_with_handle_allocator IOBackendKind.rpc })
    else
      RunOutcome.returned (Except.error (AnyhowError.message daemonRequiredMsg))
  | AssetServerSettings.packfile path =>
    match file_open path with
    | Except.error e => RunOutcome.returned (Except.error (AnyhowError.io e))
    | Except.ok file =>
      match packfile_reader_new file with
      | Except.error _ => RunOutcome.panicked resultUnwrapErrMsg
      | Except.ok reader =>
        RunOutcome.returned (Except.ok
          { max_loader_threads := 4, ref_op_queue := [],
            loader := LoaderState.new_with_handle_allocator (IOBackendKind.packfile reader) })

/-- `AssetServer::get_handle` (lines 161-164):
`Handle::<T>::new(self.ref_op_tx(), id)` — builds a typed handle for a known
identifier; the loader is not consulted. -/
def AssetServer.get_handle (T : Type) (s : AssetServerState) (id : LoadHandle) :
    Handle T × AssetServerState :=
  let r := Handle.new T s.ref_op_queue id
  (r.1, { s with ref_op_queue := r.2 })

/-- `AssetServer::get_handle_untyped` (lines 166-169):
`GenericHandle::new(self.ref_op_tx(), id)`. -/
def AssetServer.get_handle_untyped (s : AssetServerState) (id : LoadHandle) :
    GenericHandle × AssetServerState :=
  let r := GenericHandle.new s.ref_op_queue id
  (r.1, { s with ref_op_queue := r.2 })

/-- `AssetServer::load_untyped` (lines 180-183): registers the load with the
loader via `add_ref_indirect`, then wraps the returned `LoadHandle` in
`GenericHandle::new(self.ref_op_tx(), handle)`. -/
def AssetServer.load_untyped (s : AssetServerState) (path : IndirectIdentifier) :
    GenericHandle × AssetServerState :=
  let lr := s.loader.add_ref_indirect path
  let hr := GenericHandle.new s.ref_op_queue lr.2
  (hr.1, { s with loader := lr.1, ref_op_queue := hr.2 })

/-- `AssetServer::load` (lines 175-178):
`self.load_untyped(IndirectIdentifier::Path(path.to_string())).into()`. -/
def AssetServer.load (T : Type) (s : AssetServerState) (path : String) :
    Handle T × AssetServerState :=
  let r := AssetServer.load_untyped s (IndirectIdentifier.path path)
  ({ handle := r.1.handle }, r.2)

/-- The `unimplemented!` report of `AssetServer::load_folder` (line 189). -/
def loadFolderUnimplementedMsg : String :=
  "not implemented: Waiting on the ability to load directories in atelier"

/-- The `unimplemented!` report of `AssetServer::get_handle_path` (line 172). -/
def getHandlePathUnimplementedMsg : String :=
  "not implemented: Blocked by https://github.com/amethyst/atelier-assets/issues/77, but why do you want this? Could you please open an issue describing your usecase, thanks."

/-- `AssetServer::load_folder` (lines 185-190): the body is a single
`unimplemented!(..)`. -/
def AssetServer.load_folder (_s : AssetServerState) (_path : String) :
    RunOutcome (Except AssetServerError (List GenericHandle)) :=
  RunOutcome.panicked loadFolderUnimplementedMsg

/-- `AssetServer::get_handle_path` (lines 171-173): the body is a single
`unimplemented!(..)`. -/
def AssetServer.get_handle_path (_s : AssetServerState) (_handle : LoadHandle) :
    RunOutcome (Option IndirectIdentifier) :=
  RunOutcome.panicked getHandlePathUnimplementedMsg

/-- `AssetServer::process_system` (lines 192-205). It fetches the
`AssetServer` and `AssetTypeRegistry` resources (`.expect(..)` — panic when
absent), builds an `AssetStorageResolver` over them, and calls
`self.loader.process(&resolver, &DefaultIndirectionResolver).unwrap()`.
`loader_process` stands for the external `Loader::process` step: it sees the
loader state and, through the resolver it was handed, the registry and
resources — but not the ref-op channel, which nothing in the body reads. An
`Err` from `loader.process` hits the `.unwrap()` and panics. -/
def AssetServer.process_system
    (loader_process : LoaderState → AssetTypeRegistry → Resources → Except Nat LoaderState)
    (resources : Resources) (asset_server : Option AssetServerState)
    (asset_type_registry : Option AssetTypeRegistry) : RunOutcome AssetServerState :=
  match asset_server with
  | none => RunOutcome.panicked
      "AssetServer does not exist. Consider adding it as a resource."
  | some s =>
    match asset_type_registry with
    | none => RunOutcome.panicked
        "AssetTypeRegistry does not exist. Consider adding it as a resource."
    | some registry =>
      match loader_process s.loader registry resources with
      | Except.ok l => RunOutcome.returned { s with loader := l }
      | Except.error _ => RunOutcome.panicked resultUnwrapErrMsg

/-! Sample values used by the closed theorems and witnesses. -/

/-- A registry with no registration at all. -/
def emptyRegistry : AssetTypeRegistry := { registrations := [] }

/-- A concrete storage whose `update_asset` returns a fixed storage error. -/
def sampleStorage : AssetStorage :=
  { update_asset := fun _ _ _ _ _ _ => Except.error (BoxedDynError.other 9) }

/-- A registration whose visitor invokes the callback exactly once, with
`sampleStorage`. -/
def sampleRegistration : AssetTypeRegistration :=
  { get_assets_storage_fn := fun _ => [sampleStorage] }

/-- A registry holding `sampleRegistration` under type id 1. -/
def sampleRegistry : AssetTypeRegistry :=
  { registrations := [({ uuid := 1 }, sampleRegistration)] }

/-- A fresh loader over the rpc backend. -/
def sampleLoader : LoaderState := LoaderState.new_with_handle_allocator IOBackendKind.rpc

/-- A server state with one pending `Decrease` op sitting in the ref-op
channel. -/
def pendingDecreaseServer : AssetServerState :=
  { max_loader_threads := 4, ref_op_queue := [RefOp.decrease { id := 7 }],
    loader := sampleLoader }

/-- C1: a call to `update_asset` whose `asset_type_id` has no entry in the
registry returns `Err(MissingAssetRegistration(asset_type_id))` and produces
an empty storage trace: no visitor and no storage operation is invoked. -/
theorem update_asset_missing_registration
    (registry : AssetTypeRegistry) (resources : Resources)
    (loader_info : LoaderInfoProvider) (asset_type_id : AssetTypeId) (data : List Nat)
    (load_handle : LoadHandle) (load_op : AssetLoadOp) (version : Nat)
    (h : registry.get asset_type_id = none) :
    AssetStorageResolver.update_asset registry resources loader_info asset_type_id data
        load_handle load_op version
      = ([], RunOutcome.returned (Except.error (BoxedDynError.assetServer
          (AssetServerError.missingAssetRegistration asset_type_id)))) := by
  unfold AssetStorageResolver.update_asset
  rw [h]

/-- Witness for C1 at the empty registry and concrete arguments. -/
theorem update_asset_missing_registration_witness :
    emptyRegistry.get { uuid := 1 } = none
  ∧ AssetStorageResolver.update_asset emptyRegistry { token := 0 } { token := 0 }
        { uuid := 1 } [2, 3] { id := 4 } { op_id := 5 } 6
      = ([], RunOutcome.returned (Except.error (BoxedDynError.assetServer
          (AssetServerError.missingAssetRegistration { uuid := 1 })))) :=
  ⟨rfl, update_asset_missing_registration emptyRegistry { token := 0 } { token := 0 }
    { uuid := 1 } [2, 3] { id := 4 } { op_id := 5 } 6 rfl⟩

/-- Equation lemma: `update_asset` on a registered type is the visitor event
followed by the run of the callback over the storages the visitor supplies,
with the recorded result unwrapped. -/
theorem update_asset_get_some_eq
    (registry : AssetTypeRegistry) (resources : Resources)
    (loader_info : LoaderInfoProvider) (asset_type_id : AssetTypeId) (data : List Nat)
    (load_handle : LoadHandle) (load_op : AssetLoadOp) (version : Nat)
    (registration : AssetTypeRegistration)
    (hreg : registry.get asset_type_id = some registration) :
    AssetStorageResolver.update_asset registry resources loader_info asset_type_id data
        load_handle load_op version
      = (StorageEvent.visitorInvoked asset_type_id ::
          (run_update_callback loader_info asset_type_id data load_handle version
            (some load_op) none (registration.get_assets_storage_fn resources)).1,
         unwrap_callback_result
          (run_update_callback loader_info asset_type_id data load_handle version
            (some load_op) none (registration.get_assets_storage_fn resources)).2) := by
  unfold AssetStorageResolver.update_asset
  rw [hreg]

/-- C2: a call to `update_asset` whose `asset_type_id` is registered, with a
visitor that hands the callback the concrete storage once, invokes the
visitor, passes the concrete storage exactly the `loader_info`,
`asset_type_id`, `data`, `load_handle`, `load_op` and `version` the resolver
received, and returns exactly the result the concrete storage returned. -/
theorem update_asset_registered_dispatch
    (registry : AssetTypeRegistry) (resources : Resources)
    (loader_info : LoaderInfoProvider) (asset_type_id : AssetTypeId) (data : List Nat)
    (load_handle : LoadHandle) (load_op : AssetLoadOp) (version : Nat)
    (registration : AssetTypeRegistration) (storage : AssetStorage)
    (hreg : registry.get asset_type_id = some registration)
    (hvis : registration.get_assets_storage_fn resources = [storage]) :
    AssetStorageResolver.update_asset registry resources loader_info asset_type_id data
        load_handle load_op version
      = ([StorageEvent.visitorInvoked asset_type_id,
          StorageEvent.updateCalled loader_info asset_type_id data load_handle load_op version],
         RunOutcome.returned (storage.update_asset loader_info asset_type_id data
           load_handle load_op version)) := by
  rw [update_asset_get_some_eq registry resources loader_info asset_type_id data
    load_handle load_op version registration hreg, hvis]
  rfl

/-- Witness for C2 at `sampleRegistry` and concrete arguments. -/
theorem update_asset_registered_dispatch_witness :
    sampleRegistry.get { uuid := 1 } = some sampleRegistration
  ∧ sampleRegistration.get_assets_storage_fn { token := 0 } = [sampleStorage]
  ∧ AssetStorageResolver.update_asset sampleRegistry { token := 0 } { token := 2 }
        { uuid := 1 } [3, 4] { id := 5 } { op_id := 6 } 7
      = ([StorageEvent.visitorInvoked { uuid := 1 },
          StorageEvent.updateCalled { token := 2 } { uuid := 1 } [3, 4] { id := 5 }
            { op_id := 6 } 7],
         RunOutcome.returned (sampleStorage.update_asset { token := 2 } { uuid := 1 }
           [3, 4] { id := 5 } { op_id := 6 } 7)) :=
  ⟨rfl, rfl, update_asset_registered_dispatch sampleRegistry { token := 0 } { token := 2 }
    { uuid := 1 } [3, 4] { id := 5 } { op_id := 6 } 7 sampleRegistration sampleStorage
    rfl rfl⟩

/-- C9: for a registered asset type, `update_asset` returns normally exactly
when the visitor invokes the callback once: zero invocations leave `result`
empty and the final `result.unwrap()` panics, one invocation returns the
concrete storage's result, and a second invocation panics on the unwrap of
the already-consumed `load_op_arg`. -/
theorem update_asset_callback_exactly_once
    (registry : AssetTypeRegistry) (resources : Resources)
    (loader_info : LoaderInfoProvider) (asset_type_id : AssetTypeId) (data : List Nat)
    (load_handle : LoadHandle) (load_op : AssetLoadOp) (version : Nat)
    (registration : AssetTypeRegistration)
    (hreg : registry.get asset_type_id = some registration) :
    (AssetStorageResolver.update_asset registry resources loader_info asset_type_id data
        load_handle load_op version).2
      = match registration.get_assets_storage_fn resources with
        | [storage] => RunOutcome.returned (storage.update_asset loader_info asset_type_id
            data load_handle load_op version)
        | _ => RunOutcome.panicked optionUnwrapNoneMsg := by
  rw [update_asset_get_some_eq registry resources loader_info asset_type_id data
    load_handle load_op version registration hreg]
  cases hfn : registration.get_assets_storage_fn resources with
  | nil => rfl
  | cons s rest =>
    cases rest with
    | nil => rfl
    | cons s2 rest2 => rfl

/-- Witness for C9 at `sampleRegistry`, whose visitor invokes the callback
exactly once. -/
theorem update_asset_callback_exactly_once_witness :
    sampleRegistry.get { uuid := 1 } = some sampleRegistration
  ∧ (AssetStorageResolver.update_asset sampleRegistry { token := 0 } { token := 2 }
        { uuid := 1 } [3] { id := 4 } { op_id := 5 } 6).2
      = match sampleRegistration.get_assets_storage_fn { token := 0 } with
        | [storage] => RunOutcome.returned (storage.update_asset { token := 2 }
            { uuid := 1 } [3] { id := 4 } { op_id := 5 } 6)
        | _ => RunOutcome.panicked optionUnwrapNoneMsg :=
  ⟨rfl, update_asset_callback_exactly_once sampleRegistry { token := 0 } { token := 2 }
    { uuid := 1 } [3] { id := 4 } { op_id := 5 } 6 sampleRegistration rfl⟩

/-- C10: `commit_asset_version` and `free` on an unregistered asset type
return normally with an empty storage trace (no panic is even possible in
their embedding, which returns the trace totally), while `update_asset` on
the same unregistered type returns the `MissingAssetRegistration` error. -/
theorem commit_free_missing_registration_silent
    (registry : AssetTypeRegistry) (resources : Resources) (asset_type_id : AssetTypeId)
    (load_handle : LoadHandle) (version : Nat) (loader_info : LoaderInfoProvider)
    (data : List Nat) (load_op : AssetLoadOp)
    (h : registry.get asset_type_id = none) :
    AssetStorageResolver.commit_asset_version registry resources asset_type_id
        load_handle version = []
  ∧ AssetStorageResolver.free registry resources asset_type_id load_handle version = []
  ∧ (AssetStorageResolver.update_asset registry resources loader_info asset_type_id data
        load_handle load_op version).2
      = RunOutcome.returned (Except.error (BoxedDynError.assetServer
          (AssetServerError.missingAssetRegistration asset_type_id))) := by
  refine ⟨?_, ?_, ?_⟩
  · unfold AssetStorageResolver.commit_asset_version
    rw [h]
  · unfold AssetStorageResolver.free
    rw [h]
  · unfold AssetStorageResolver.update_asset
    rw [h]

/-- Witness for C10 at the empty registry and concrete arguments. -/
theorem commit_free_missing_registration_silent_witness :
    emptyRegistry.get { uuid := 8 } = none
  ∧ (AssetStorageResolver.commit_asset_version emptyRegistry { token := 0 } { uuid := 8 }
        { id := 1 } 2 = []
  ∧ AssetStorageResolver.free emptyRegistry { token := 0 } { uuid := 8 } { id := 1 } 2 = []
  ∧ (AssetStorageResolver.update_asset emptyRegistry { token := 0 } { token := 3 }
        { uuid := 8 } [4] { id := 1 } { op_id := 5 } 2).2
      = RunOutcome.returned (Except.error (BoxedDynError.assetServer
          (AssetServerError.missingAssetRegistration { uuid := 8 })))) :=
  ⟨rfl, commit_free_missing_registration_silent emptyRegistry { token := 0 } { uuid := 8 }
    { id := 1 } 2 { token := 3 } [4] { op_id := 5 } rfl⟩

/-- C3 (divergence witness): a full coordinator cycle — `process_system` with
a loader step that succeeds — returns with the pending `Decrease` op still
sitting untouched in the ref-op channel: the cycle never drains the channel
before (or after) running the loader's process step. -/
theorem process_system_does_not_drain_ref_ops :
    AssetServer.process_system (fun l _ _ => Except.ok l) { token := 0 }
        (some pendingDecreaseServer) (some emptyRegistry)
      = RunOutcome.returned pendingDecreaseServer
  ∧ pendingDecreaseServer.ref_op_queue = [RefOp.decrease { id := 7 }] :=
  ⟨rfl, rfl⟩

/-- C5 (divergence witness): when the loader's process step reports an error
(e.g. a transient backend io error, code 5), `process_system` hits the
`.unwrap()` and panics, terminating the coordinator. -/
theorem process_system_panics_on_loader_error :
    AssetServer.process_system (fun _ _ _ => Except.error 5) { token := 0 }
        (some pendingDecreaseServer) (some emptyRegistry)
      = RunOutcome.panicked resultUnwrapErrMsg :=
  rfl

/-- C4: with the daemon capability not compiled in, `AssetServer::new` on any
`Directory` settings value returns the `anyhow::bail!` configuration error
and constructs no server, whatever the filesystem collaborators do. -/
theorem new_directory_without_daemon_errors
    (file_open : String → Except Nat Nat) (packfile_reader_new : Nat → Except Nat Nat)
    (path : String) :
    AssetServer.new false file_open packfile_reader_new (AssetServerSettings.directory path)
      = RunOutcome.returned (Except.error (AnyhowError.message daemonRequiredMsg)) :=
  rfl

/-- C6: `load_untyped` registers the load with the loader via
`add_ref_indirect`, returns a handle carrying the `LoadHandle` that
registration produced, and enqueues an `Increase` op for that handle on the
ref-op channel before returning; `load` goes through `load_untyped` with the
`IndirectIdentifier::Path` built from its path argument. -/
theorem load_registers_and_enqueues_increase (T : Type) (s : AssetServerState)
    (p : String) (locator : IndirectIdentifier) :
    ((AssetServer.load_untyped s locator).2.loader = (s.loader.add_ref_indirect locator).1
  ∧ (AssetServer.load_untyped s locator).1.handle = (s.loader.add_ref_indirect locator).2
  ∧ (AssetServer.load_untyped s locator).2.ref_op_queue
      = s.ref_op_queue ++ [RefOp.increase (AssetServer.load_untyped s locator).1.handle])
  ∧ ((AssetServer.load T s p).1.handle
      = (AssetServer.load_untyped s (IndirectIdentifier.path p)).1.handle
  ∧ (AssetServer.load T s p).2 = (AssetServer.load_untyped s (IndirectIdentifier.path p)).2) :=
  ⟨⟨rfl, rfl, rfl⟩, rfl, rfl⟩

/-- C7: `get_handle` and `get_handle_untyped` return a handle referencing
exactly the given identifier and leave the loader's state untouched: no new
load is registered. -/
theorem get_handle_does_not_register_load (T : Type) (s : AssetServerState)
    (id : LoadHandle) :
    ((AssetServer.get_handle T s id).1.handle = id
  ∧ (AssetServer.get_handle T s id).2.loader = s.loader)
  ∧ ((AssetServer.get_handle_untyped s id).1.handle = id
  ∧ (AssetServer.get_handle_untyped s id).2.loader = s.loader) :=
  ⟨⟨rfl, rfl⟩, rfl, rfl⟩

/-- C8: `load_folder` and `get_handle_path` panic with their explicit
`unimplemented!` reports on every input; neither ever returns a value. -/
theorem load_folder_and_get_handle_path_panic (s : AssetServerState) (p : String)
    (h : LoadHandle) :
    AssetServer.load_folder s p = RunOutcome.panicked loadFolderUnimplementedMsg
  ∧ AssetServer.get_handle_path s h = RunOutcome.panicked getHandlePathUnimplementedMsg :=
  ⟨rfl, rfl⟩

end BevyAtelier
